import Mathlib

/-!
Verification of the excel-to-text conversion component
(`src/components/TheExcelToText.vue`).

The component's logic is embedded shallowly:

* A cell coming out of `sheet_to_json(..., { header: 1 })` is either absent
  (`undefined`/`null`, modelled `none`) or a primitive value whose
  JavaScript stringification `String(cell)` we carry as `some s`.  The
  emptiness test `cell !== ''` compares against the empty string; a
  non-string primitive is never strictly equal to `''` and never
  stringifies to `''`, so the encoding is faithful.
* `convertExcelToText` is the pure core of the converter (the `FileReader`
  and `XLSX.read` steps are external collaborators; the function is
  modelled from the parsed workbook onward).
* The component's reactive fields form `SessionState`; each handler is a
  state transformer.  `downloadTextFile` additionally returns the produced
  artifact as an optional (file name, content) pair.
-/

namespace ExcelToText

/-- A sheet: a name and a grid of rows, each cell possibly absent. -/
structure Sheet where
  name : String
  rows : List (List (Option String))
deriving DecidableEq, Repr

/-- A workbook is its sheets in declared order (`workbook.SheetNames`). -/
abbrev Workbook := List Sheet

/-- Source: `cell !== undefined && cell !== null && cell !== ''`. -/
def cellNonEmpty : Option String → Bool
  | none => false
  | some s => s != ""

/-- Source: `row.some(cell => cell !== undefined && cell !== null && cell !== '')`. -/
def keepRow (row : List (Option String)) : Bool :=
  row.any cellNonEmpty

/-- Source: `cell === undefined || cell === null ? '' : String(cell)`. -/
def renderCell : Option String → String
  | none => ""
  | some s => s

/-- Source: `row.map(renderCell).join('\t')`. -/
def renderRow (row : List (Option String)) : String :=
  String.intercalate "\t" (row.map renderCell)

/-- One iteration of the inner `jsonData.forEach(row => ...)` loop:
append the rendered row and a newline when the row is kept. -/
def convertRowsStep (t : String) (row : List (Option String)) : String :=
  if keepRow row then t ++ renderRow row ++ "\n" else t

/-- Source: `` text += `===== ${sheetName} =====\n` ``. -/
def headerLine (name : String) : String :=
  "===== " ++ name ++ " =====\n"

/-- One iteration of the outer `workbook.SheetNames.forEach` loop:
header, then the row loop, then the trailing blank line. -/
def convertSheetStep (t : String) (sh : Sheet) : String :=
  (sh.rows.foldl convertRowsStep (t ++ headerLine sh.name)) ++ "\n"

/-- The pure core of `convertExcelToText`: the accumulating loop over the
workbook's sheets starting from `let text = ''`. -/
def convertExcelToText (wb : Workbook) : String :=
  wb.foldl convertSheetStep ""

/-- Spec-shaped block for one sheet (used to state the refinement claim):
header line, then each retained row rendered and newline-terminated, then
one blank line. -/
def spec_sheetBlock (sh : Sheet) : String :=
  headerLine sh.name
    ++ String.join ((sh.rows.filter keepRow).map (fun r => renderRow r ++ "\n"))
    ++ "\n"

/-- Spec-shaped conversion result: concatenation of the sheet blocks in
workbook order. -/
def spec_convert (wb : Workbook) : String :=
  String.join (wb.map spec_sheetBlock)

/-- The component's reactive session state. -/
structure SessionState where
  convertedText : String
  isProcessing : Bool
  fileName : String
  errorMessage : String
deriving DecidableEq, Repr

/-- State after the synchronous prefix of `handleFileUpload`, before the
conversion promise is awaited: `fileName.value = file.name`,
`errorMessage.value = ''`, `isProcessing.value = true`. -/
def handleFileUpload_start (s : SessionState) (name : String) : SessionState :=
  { s with fileName := name, errorMessage := "", isProcessing := true }

/-- State update performed when the conversion promise settles: on success
store the text; on failure store the error message and clear the text; the
`finally` block always resets `isProcessing`. -/
def handleFileUpload_finish (s : SessionState) : Except String String → SessionState
  | Except.ok t => { s with convertedText := t, isProcessing := false }
  | Except.error m => { s with errorMessage := m, convertedText := "", isProcessing := false }

/-- The whole `handleFileUpload` run for one selected file, with the
conversion's outcome passed in as data. -/
def handleFileUpload (s : SessionState) (name : String) (res : Except String String) :
    SessionState :=
  handleFileUpload_finish (handleFileUpload_start s name) res

/-- Source: `fileName.value.replace(/\.[^/.]+$/, '')`.  The regex matches a
final `.` followed by one or more characters none of which is `.` or `/`;
when it matches, that suffix is removed, otherwise the name is unchanged. -/
def stripExt (s : String) : String :=
  let rev := s.data.reverse
  let ext := rev.takeWhile (fun c => c ≠ '.' ∧ c ≠ '/')
  match rev.drop ext.length with
  | '.' :: stem => if ext.length = 0 then s else String.mk stem.reverse
  | _ => s

/-- `downloadTextFile` as a function from state to the produced artifact:
`none` when the held text is empty (early return, no download), otherwise
the pair (download name, blob content).  The state is not mutated. -/
def downloadTextFile (s : SessionState) : Option (String × String) :=
  if s.convertedText = "" then none
  else some (stripExt s.fileName ++ ".txt", s.convertedText)

/-- `copyToClipboard` as a state transformer; `ok` tells whether the
platform clipboard write succeeded.  Early return on empty text; on a
failed write the fixed message is stored in `errorMessage`. -/
def copyToClipboard (s : SessionState) (ok : Bool) : SessionState :=
  if s.convertedText = "" then s
  else if ok then s
  else { s with errorMessage := "复制到剪贴板失败" }

/-- Source `clearResult`: reset text, file name and error message. -/
def clearResult (s : SessionState) : SessionState :=
  { s with convertedText := "", fileName := "", errorMessage := "" }

/-- The four user actions on the session state. -/
inductive Action where
  | upload (name : String) (res : Except String String)
  | copy (ok : Bool)
  | download
  | clear

/-- Apply one user action to the state (`download` never mutates state). -/
def applyAction (s : SessionState) : Action → SessionState
  | Action.upload name res => handleFileUpload s name res
  | Action.copy ok => copyToClipboard s ok
  | Action.download => s
  | Action.clear => clearResult s

/-- Apply a sequence of user actions in order. -/
def applyActions (s : SessionState) (acts : List Action) : SessionState :=
  acts.foldl applyAction s

/-- An action is copy-safe when it is not a failing clipboard copy. -/
def actionOk : Action → Bool
  | Action.copy ok => ok
  | _ => true

/-- Mutual exclusivity of the result text and the error message. -/
def mutexState (s : SessionState) : Prop :=
  s.convertedText = "" ∨ s.errorMessage = ""

instance mutexState_decidable (s : SessionState) : Decidable (mutexState s) :=
  inferInstanceAs (Decidable (s.convertedText = "" ∨ s.errorMessage = ""))

/-! ## Helper lemmas -/

/-- Folding string concatenation from `t` equals `t ++` the join. -/
theorem foldl_append_eq (l : List String) (t : String) :
    l.foldl (fun a b => a ++ b) t = t ++ String.join l := by
  induction l generalizing t with
  | nil => simp [String.join, String.append_empty]
  | cons a l ih =>
      simp only [List.foldl_cons, String.join, List.foldl_cons] at *
      rw [ih (t ++ a), ih ("" ++ a), String.empty_append, String.append_assoc]

/-- `String.join` unfolds one element at a time. -/
theorem join_cons (a : String) (l : List String) :
    String.join (a :: l) = a ++ String.join l := by
  have h := foldl_append_eq l
  simp only [String.join, List.foldl_cons]
  rw [h ("" ++ a), String.empty_append, h "", String.empty_append]

/-- The inner row loop, started at accumulator `t`, appends exactly the
retained rows (filtered by `keepRow`), each newline-terminated. -/
theorem convertRows_eq (rows : List (List (Option String))) (t : String) :
    rows.foldl convertRowsStep t
      = t ++ String.join ((rows.filter keepRow).map fun r => renderRow r ++ "\n") := by
  induction rows generalizing t with
  | nil => simp [String.join, String.append_empty]
  | cons r rows ih =>
      by_cases h : keepRow r
      · simp only [List.foldl_cons, convertRowsStep, h, if_true, List.filter_cons_of_pos h,
          List.map_cons, join_cons]
        rw [ih]
        simp only [String.append_assoc]
      · simp only [List.foldl_cons, convertRowsStep, h, if_false, Bool.false_eq_true,
          List.filter_cons_of_neg h]
        exact ih t

/-- The outer sheet loop, started at accumulator `t`, appends exactly the
spec-shaped sheet blocks. -/
theorem convertSheets_eq (wb : Workbook) (t : String) :
    wb.foldl convertSheetStep t = t ++ spec_convert wb := by
  induction wb generalizing t with
  | nil => simp [spec_convert, String.join, String.append_empty]
  | cons sh wb ih =>
      simp only [List.foldl_cons, convertSheetStep, spec_convert, List.map_cons, join_cons]
      rw [convertRows_eq, ih]
      simp only [spec_sheetBlock, spec_convert, String.append_assoc]

/-- A cell fails the source emptiness test iff it is absent/null or the
empty string. -/
theorem cellNonEmpty_false_iff (c : Option String) :
    cellNonEmpty c = false ↔ c = none ∨ c = some "" := by
  cases c with
  | none => simp [cellNonEmpty]
  | some s => simp [cellNonEmpty]

/-- A successful clipboard write leaves the state untouched. -/
theorem copy_ok_id (s : SessionState) : copyToClipboard s true = s := by
  unfold copyToClipboard
  split <;> rfl

/-- Mutual exclusivity is preserved by every action except a failing copy. -/
theorem mutex_preserved (s : SessionState) (a : Action) (hm : mutexState s)
    (ha : actionOk a = true) : mutexState (applyAction s a) := by
  cases a with
  | upload name res =>
      cases res with
      | ok t => exact Or.inr rfl
      | error m => exact Or.inl rfl
  | copy ok =>
      cases ok with
      | false => exact absurd ha (by simp [actionOk])
      | true => simpa [applyAction, copy_ok_id] using hm
  | download => exact hm
  | clear => exact Or.inl rfl

/-- Mutual exclusivity is preserved by any sequence of copy-safe actions. -/
theorem mutex_actions (s : SessionState) (acts : List Action) (hm : mutexState s)
    (h : ∀ a ∈ acts, actionOk a = true) : mutexState (applyActions s acts) := by
  induction acts generalizing s with
  | nil => exact hm
  | cons a acts ih =>
      exact ih (applyAction s a) (mutex_preserved s a hm (h a (by simp)))
        (fun b hb => h b (by simp [hb]))

/-! ## Claims -/

/-- C1: the conversion result equals the concatenation, over the workbook's
sheets in declared order, of a `===== <name> =====` header line, the
retained rows rendered tab-separated and newline-terminated, and one
trailing blank line; the block list has one entry per sheet, in input
order. -/
theorem C1_convert_eq_spec (wb : Workbook) :
    convertExcelToText wb = spec_convert wb
    ∧ (wb.map spec_sheetBlock).length = wb.length := by
  constructor
  · unfold convertExcelToText
    rw [convertSheets_eq, String.empty_append]
  · simp

/-- C2: a row is skipped iff every cell is absent/null/empty-string; a
whitespace-only cell is retained; and the single-sheet example workbook
converts to exactly the stated string. -/
theorem C2_row_filter :
    (∀ row : List (Option String),
      keepRow row = false ↔ ∀ c ∈ row, c = none ∨ c = some "")
    ∧ keepRow [some " "] = true
    ∧ convertExcelToText [⟨"Sheet1", [[some "a", some "b"], [], [some "", none]]⟩]
        = "===== Sheet1 =====\na\tb\n\n" := by
  refine ⟨?_, by decide, by decide⟩
  intro row
  constructor
  · intro h c hc
    exact (cellNonEmpty_false_iff c).mp (by
      by_contra hne
      have : row.any cellNonEmpty = true := List.any_eq_true.mpr
        ⟨c, hc, by simpa using hne⟩
      rw [keepRow] at h
      simp [this] at h)
  · intro h
    rw [keepRow]
    by_contra hne
    have hx : row.any cellNonEmpty = true := by
      cases hany : row.any cellNonEmpty with
      | true => rfl
      | false => exact absurd hany hne
    obtain ⟨c, hc, hcne⟩ := List.any_eq_true.mp hx
    have := (cellNonEmpty_false_iff c).mpr (h c hc)
    simp [this] at hcne

/-- C3: when the conversion fails, the state afterwards holds the error's
message, the text field is empty, and the processing flag is false. -/
theorem C3_failure_state (s : SessionState) (name m : String) :
    (handleFileUpload s name (Except.error m)).errorMessage = m
    ∧ (handleFileUpload s name (Except.error m)).convertedText = ""
    ∧ (handleFileUpload s name (Except.error m)).isProcessing = false :=
  ⟨rfl, rfl, rfl⟩

/-- C4 counterexample: after a successful conversion, a failing clipboard
copy sets the error message while the text stays non-empty, so text and
error are both non-empty — the claimed mutual exclusivity fails on the
action sequence [copy (failing)]. -/
theorem C4_counterexample :
    ¬ mutexState (applyActions
        (handleFileUpload ⟨"", false, "", ""⟩ "book.xlsx" (Except.ok "a\tb\n"))
        [Action.copy false]) := by
  decide

/-- C4 (amended): in every state reachable after conversion completion by a
sequence of the four actions in which no clipboard copy fails, the text and
error fields are mutually exclusive (at most one is non-empty). -/
theorem C4_mutex_after_completion (s : SessionState) (name : String)
    (res : Except String String) (acts : List Action)
    (h : ∀ a ∈ acts, actionOk a = true) :
    mutexState (applyActions (handleFileUpload s name res) acts) := by
  apply mutex_actions _ _ _ h
  cases res with
  | ok t => exact Or.inr rfl
  | error m => exact Or.inl rfl

/-- C4 witness: the amended invariant evaluated on a concrete run. -/
theorem C4_mutex_after_completion_witness :
    (∀ a ∈ [Action.copy true, Action.clear, Action.download], actionOk a = true)
    ∧ mutexState (applyActions
        (handleFileUpload ⟨"", false, "", ""⟩ "b.xlsx" (Except.ok "t"))
        [Action.copy true, Action.clear, Action.download]) :=
  ⟨by decide, C4_mutex_after_completion ⟨"", false, "", ""⟩ "b.xlsx" (Except.ok "t")
    [Action.copy true, Action.clear, Action.download] (by decide)⟩

/-- C5 counterexample: at the start of a new file selection the text field
is not reset — with previous text "prev" it still holds "prev" just before
the conversion is invoked. -/
theorem C5_counterexample :
    ¬ ((handleFileUpload_start ⟨"prev", false, "old.xlsx", ""⟩ "new.xlsx").convertedText
        = "") := by
  decide

/-- C5 (amended): at the start of a new file selection, before the
conversion is invoked, only the error field is reset to empty; the file
name is set to the selected file's name, the processing flag is set, and
the text field keeps its previous value. -/
theorem C5_start_resets_error_only (s : SessionState) (name : String) :
    (handleFileUpload_start s name).errorMessage = ""
    ∧ (handleFileUpload_start s name).fileName = name
    ∧ (handleFileUpload_start s name).convertedText = s.convertedText
    ∧ (handleFileUpload_start s name).isProcessing = true :=
  ⟨rfl, rfl, rfl, rfl⟩

/-- C6: with non-empty held text the download carries exactly the held text
under the original base name with ".txt" appended; with empty text the
download is a no-op. -/
theorem C6_download_spec (s : SessionState) :
    (s.convertedText ≠ "" →
      downloadTextFile s = some (stripExt s.fileName ++ ".txt", s.convertedText))
    ∧ (s.convertedText = "" → downloadTextFile s = none) := by
  constructor
  · intro h
    simp [downloadTextFile, h]
  · intro h
    simp [downloadTextFile, h]

/-- C6 witness: fileName "Report.xlsx" with text "A\tB\n" downloads as
"Report.txt" with content exactly "A\tB\n"; empty text downloads
nothing. -/
theorem C6_download_spec_witness :
    (("A\tB\n" : String) ≠ ""
      ∧ downloadTextFile ⟨"A\tB\n", false, "Report.xlsx", ""⟩
          = some ("Report.txt", "A\tB\n"))
    ∧ (("" : String) = ""
      ∧ downloadTextFile ⟨"", false, "Report.xlsx", ""⟩ = none) := by
  refine ⟨⟨by decide, ?_⟩, ⟨rfl, ?_⟩⟩
  · have h := (C6_download_spec ⟨"A\tB\n", false, "Report.xlsx", ""⟩).1 (by decide)
    rw [h]
    decide
  · exact (C6_download_spec ⟨"", false, "Report.xlsx", ""⟩).2 rfl

/-- C7: copy is a no-op on empty text; a failing copy on non-empty text
stores the fixed failure message and changes nothing else (text and file
name are unchanged for every copy outcome). -/
theorem C7_copy_spec (s : SessionState) :
    (s.convertedText = "" → ∀ ok, copyToClipboard s ok = s)
    ∧ (s.convertedText ≠ "" →
        copyToClipboard s false = { s with errorMessage := "复制到剪贴板失败" })
    ∧ (∀ ok, (copyToClipboard s ok).convertedText = s.convertedText)
    ∧ (∀ ok, (copyToClipboard s ok).fileName = s.fileName) := by
  refine ⟨?_, ?_, ?_, ?_⟩
  · intro h ok
    simp [copyToClipboard, h]
  · intro h
    simp [copyToClipboard, h]
  · intro ok
    unfold copyToClipboard
    split
    · rfl
    · split <;> rfl
  · intro ok
    unfold copyToClipboard
    split
    · rfl
    · split <;> rfl

/-- C7 witness: the no-op and the failing-copy clauses evaluated on
concrete states. -/
theorem C7_copy_spec_witness :
    (("" : String) = ""
      ∧ copyToClipboard ⟨"", true, "f.xlsx", "e"⟩ false = ⟨"", true, "f.xlsx", "e"⟩)
    ∧ (("x" : String) ≠ ""
      ∧ copyToClipboard ⟨"x", false, "f.xlsx", ""⟩ false
          = ⟨"x", false, "f.xlsx", "复制到剪贴板失败"⟩) :=
  ⟨⟨rfl, (C7_copy_spec ⟨"", true, "f.xlsx", "e"⟩).1 rfl false⟩,
   ⟨by decide, (C7_copy_spec ⟨"x", false, "f.xlsx", ""⟩).2.1 (by decide)⟩⟩

/-- C8: clear empties text, file name and error, leaves the processing flag
unchanged, and afterwards copy and download are no-ops producing no
artifact. -/
theorem C8_clear_spec (s : SessionState) (ok : Bool) :
    (clearResult s).convertedText = ""
    ∧ (clearResult s).fileName = ""
    ∧ (clearResult s).errorMessage = ""
    ∧ (clearResult s).isProcessing = s.isProcessing
    ∧ copyToClipboard (clearResult s) ok = clearResult s
    ∧ downloadTextFile (clearResult s) = none := by
  refine ⟨rfl, rfl, rfl, rfl, ?_, ?_⟩
  · simp [copyToClipboard, clearResult]
  · simp [downloadTextFile, clearResult]

/-- C9: the embedded conversion is deterministic — two runs on the same
parsed workbook produce byte-identical text. -/
theorem C9_deterministic (wb : Workbook) :
    convertExcelToText wb = convertExcelToText wb := rfl

/-- C10: a successful copy writes nothing to the session state: error
message, text and file name all stay exactly as they were. -/
theorem C10_copy_success_frame (s : SessionState) :
    copyToClipboard s true = s :=
  copy_ok_id s

end ExcelToText
